import Mathlib

/-!
Verification of the multi-channel robot controller client
(`backend/robot_client.py`, class `RobotTCPClient`).

The Python source is shallowly embedded below.  Pure string processing
(`send_command` payload construction, dashboard reply classification) is
translated to executable functions over `String`; the mutable instance
attributes of `RobotTCPClient` become an explicit `ClientState` record and
each method becomes a state-passing function.  Wall-clock values
(`time.time()`) and socket outcomes are passed in as explicit parameters;
floats are modelled as rationals (only order comparisons and clamping
matter, which agree with IEEE semantics on the values involved).
-/

/-- Python `str.isspace` characters relevant to `str.strip()` (ASCII). -/
def pyIsSpace (c : Char) : Bool :=
  c == ' ' || c == '\t' || c == '\n' || c == '\r' || c == Char.ofNat 11 || c == Char.ofNat 12

/-- Python `str.strip()` with no argument: drop leading and trailing whitespace. -/
def pyStrip (s : String) : String :=
  String.mk (((s.data.dropWhile pyIsSpace).reverse.dropWhile pyIsSpace).reverse)

/-- Python `str.lower()` (ASCII case folding, which is all the source uses). -/
def pyLower (s : String) : String :=
  String.mk (s.data.map Char.toLower)

/-- First list occurs at the start of the second list. -/
def charListStartsWith : List Char → List Char → Bool
  | [], _ => true
  | _ :: _, [] => false
  | a :: as, b :: bs => a == b && charListStartsWith as bs

/-- Needle occurs contiguously somewhere in the haystack. -/
def charListHasSub (needle : List Char) : List Char → Bool
  | [] => needle.isEmpty
  | b :: bs => charListStartsWith needle (b :: bs) || charListHasSub needle bs

/-- Python `needle in hay` substring test. -/
def strContains (hay needle : String) : Bool :=
  charListHasSub needle.data hay.data

/-- Python `s.endswith(suffix)`. -/
def strEndsWith (s suf : String) : Bool :=
  charListStartsWith suf.data.reverse s.data.reverse

/-! ## Data model

`ClientState` embeds the mutable attributes of `RobotTCPClient.__init__` that
the verified operations read or write.  Reader/writer/task handles are
represented by the corresponding `*_connected` booleans (in the source a
writer is non-None exactly when its flag is set on every reachable path);
`rtde_watch_input` becomes `hasWatchInput` together with
`watchHasSpeedFields` (the `hasattr` checks on the negotiated recipe).
-/

/-- Telemetry part of `latest_state` as built by `_rtde_worker` and
`_feedback_listener` (the ISO timestamp string is a wall-clock artefact and
is not modelled). -/
structure Telem where
  joints : List ℚ
  tcp_pose : List ℚ
  tcp_offset : List ℚ
  speed_slider : ℚ
deriving DecidableEq, Repr

/-- The dict returned by `read_state`: telemetry plus the status fields the
method copies in. -/
structure Snapshot where
  joints : List ℚ
  tcp_pose : List ℚ
  tcp_offset : List ℚ
  speed_slider : ℚ
  robot_mode : Int
  safety_mode : Int
  program_state : Nat
  loaded_program : Option String
deriving DecidableEq, Repr

/-- Mutable attributes of `RobotTCPClient`. -/
structure ClientState where
  connected : Bool
  feedback_connected : Bool
  dashboard_connected : Bool
  rtde_connected : Bool
  hasWatchInput : Bool
  watchHasSpeedFields : Bool
  latest_state : Option Telem
  rtde_speed_slider : ℚ
  robot_mode : Int
  safety_mode : Int
  program_state : Nat
  program_state_lock_until : ℚ
  loaded_program : Option String
deriving DecidableEq, Repr

/-- Attribute values set by `RobotTCPClient.__init__`. -/
def initState : ClientState :=
  { connected := false
    feedback_connected := false
    dashboard_connected := false
    rtde_connected := false
    hasWatchInput := false
    watchHasSpeedFields := false
    latest_state := none
    rtde_speed_slider := 1
    robot_mode := -1
    safety_mode := -1
    program_state := 0
    program_state_lock_until := 0
    loaded_program := none }

/-! ## Command channel: `send_command` -/

/-- Exact bytes `send_command(urscript)` writes to the command socket when
connected: append a trailing newline if absent, and wrap multi-line scripts
that do not already contain a definition as a secondary program. -/
def sendCommandPayload (urscript : String) : String :=
  let command := if strEndsWith urscript "\n" then urscript else urscript ++ "\n"
  if strContains (pyStrip urscript) "\n" && !strContains urscript "def " then
    "def secondary_program():\n" ++ command ++ "end\n"
  else
    command

/-- State effect and result of `send_command`: fails fast when not connected;
a write error (modelled by `writeOk = false`) returns failure and clears
`connected`. -/
def sendCommand (st : ClientState) (writeOk : Bool) : Bool × ClientState :=
  if !st.connected then (false, st)
  else if writeOk then (true, st)
  else (false, { st with connected := false })

/-! ## Connection lifecycle: `connect`, `disconnect`, `is_connected` -/

/-- Environment of one `connect` call: whether each socket / negotiation step
succeeds.  `cmdOk` is the 3s-timeout open of the command socket; `rtdeOk`
additionally requires the library to be importable and the handshake
(§ `_rtde_handshake`) to succeed; `inputRecipeOk` is the non-fatal
`set_speed` input-recipe negotiation and `inputHasSpeedFields` the
`hasattr` availability of its two slider fields. -/
structure ConnectEnv where
  cmdOk : Bool
  fbOk : Bool
  dashOk : Bool
  rtdeLibAvail : Bool
  rtdeConnOk : Bool
  rtdeHandshakeOk : Bool
  inputRecipeOk : Bool
  inputHasSpeedFields : Bool
deriving DecidableEq, Repr

/-- `connect(host, port)`: the command socket is attempted first and its
failure aborts the call before any other channel is touched; the three
secondary channels are then attempted independently and their failures are
recorded in the flags without affecting the returned success. -/
def connect (st : ClientState) (env : ConnectEnv) : Bool × ClientState :=
  if env.cmdOk then
    let rtdeOk := env.rtdeLibAvail && env.rtdeConnOk && env.rtdeHandshakeOk
    (true,
      { st with
        connected := true
        feedback_connected := env.fbOk
        dashboard_connected := env.dashOk
        rtde_connected := rtdeOk
        hasWatchInput := rtdeOk && env.inputRecipeOk
        watchHasSpeedFields := rtdeOk && env.inputRecipeOk && env.inputHasSpeedFields })
  else
    (false, { st with connected := false })

/-- `disconnect()`: cancels tasks (not modelled), closes writers, clears all
four channel flags and the snapshot.  It is a total function: every Python
statement in the method body is wrapped in try/except, so the call never
raises. -/
def disconnect (st : ClientState) : ClientState :=
  { st with
    connected := false
    feedback_connected := false
    dashboard_connected := false
    rtde_connected := false
    latest_state := none }

/-- `is_connected()`. -/
def isConnected (st : ClientState) : Bool :=
  st.connected

/-! ## Speed arbitration: `set_robot_speed` -/

/-- Channel actually used by one `set_robot_speed` call.  `noChannel` is the
early `return False` of `send_command` when the command socket is down.
`dashboard` never occurs in the source; it is listed so that theorems can
speak about its absence. -/
inductive SpeedChannel
  | rtde
  | dashboard
  | script
  | noChannel
deriving DecidableEq, Repr

/-- Python `max(0.0, min(1.0, fraction))`. -/
def pyClamp (fraction : ℚ) : ℚ :=
  max 0 (min 1 fraction)

/-- Socket outcomes available to one `set_robot_speed` call. -/
structure SpeedEnv where
  rtdeSendOk : Bool
  writeOk : Bool
deriving DecidableEq, Repr

/-- The URScript fallback at the end of `set_robot_speed` (a
`set_speed_slider_fraction` call carrying the clamped value, handed to
`send_command`), with the attempted payload value recorded. -/
def fallbackScript (st : ClientState) (env : SpeedEnv) (safe : ℚ) :
    (Bool × SpeedChannel × Option ℚ) × ClientState :=
  if !st.connected then ((false, SpeedChannel.noChannel, none), st)
  else if env.writeOk then ((true, SpeedChannel.script, some safe), st)
  else ((false, SpeedChannel.script, some safe), { st with connected := false })

/-- `set_robot_speed(fraction)`: clamp, cache the clamped value, try the RTDE
input recipe (guarded by `rtde_connected`, a negotiated `rtde_watch_input`
and the two `hasattr` checks; an exception in `rtde_con.send` falls
through), else fall back to the raw URScript command.  Returns
(result, channel used, value handed to that channel) and the new state. -/
def setRobotSpeed (st : ClientState) (env : SpeedEnv) (fraction : ℚ) :
    (Bool × SpeedChannel × Option ℚ) × ClientState :=
  let safe := pyClamp fraction
  let st1 := { st with rtde_speed_slider := safe }
  if st.rtde_connected && st.hasWatchInput then
    if st.watchHasSpeedFields then
      if env.rtdeSendOk then ((true, SpeedChannel.rtde, some safe), st1)
      else fallbackScript st1 env safe
    else fallbackScript st1 env safe
  else fallbackScript st1 env safe

/-- Modelled from the spec (§4.5 Speed Arbitrator), for comparison with the
source: the channel the claim predicts for `set_speed`, namely RTDE write,
else dashboard `set speed` command when the dashboard is up, else raw
script. -/
def specSpeedChannel (rtdeReady dashboardUp : Bool) : SpeedChannel :=
  if rtdeReady then SpeedChannel.rtde
  else if dashboardUp then SpeedChannel.dashboard
  else SpeedChannel.script

/-! ## `read_state` -/

/-- `read_state()`: copy `latest_state` and overlay the status fields, or
build the defaulted fallback dict when connected with no telemetry yet, or
return None. -/
def readState (st : ClientState) : Option Snapshot :=
  match st.latest_state with
  | some t =>
      some
        { joints := t.joints
          tcp_pose := t.tcp_pose
          tcp_offset := t.tcp_offset
          speed_slider := t.speed_slider
          robot_mode := st.robot_mode
          safety_mode := st.safety_mode
          program_state := st.program_state
          loaded_program := st.loaded_program }
  | none =>
      if st.connected then
        some
          { joints := List.replicate 6 0
            tcp_pose := List.replicate 6 0
            tcp_offset := List.replicate 6 0
            speed_slider := st.rtde_speed_slider
            robot_mode := st.robot_mode
            safety_mode := st.safety_mode
            program_state := st.program_state
            loaded_program := st.loaded_program }
      else none

/-! ## RTDE receive loop fragments (`_rtde_worker`) -/

/-- One `output_runtime_state` update of `program_state` inside
`_rtde_worker`: the RTDE runtime state 0 maps to STOPPED, 1 and 4 to
PLAYING, 2 and 3 to PAUSED, and the assignment happens only when
`time.time() > program_state_lock_until`. -/
def rtdeProgState (rs : Option Int) (now lockUntil : ℚ) (cur : Nat) : Nat :=
  match rs with
  | none => cur
  | some v =>
      if lockUntil < now then
        if v = 0 then 0
        else if v = 1 || v = 4 then 1
        else if v = 2 || v = 3 then 2
        else cur
      else cur

/-- Python `x is not None and 0.0 < x < 1.0`. -/
def isMidVal (x : Option ℚ) : Bool :=
  match x with
  | none => false
  | some v => decide (0 < v) && decide (v < 1)

/-- The robust speed handling of `_rtde_worker`: `ss` is `speed_scaling`,
`tsf` is `target_speed_fraction`; a missing field defaults to 1.0 inside the
final `max`. -/
def rtdeSpeedUpdate (ss tsf : Option ℚ) : ℚ :=
  if isMidVal tsf then tsf.getD 1
  else if isMidVal ss then ss.getD 1
  else max (ss.getD 1) (tsf.getD 1)

/-! ## Status poller fragment (`_status_poller`) -/

/-- The `programState` handling of one `_status_poller` iteration: the reply
is classified by substring and `program_state` is assigned directly.  The
source consults no clock here, so the function deliberately has no time
parameter: `program_state_lock_until` is ignored on this path (only
`_rtde_worker` checks it). -/
def pollerProgramState (progResp : Option String) (st : ClientState) : ClientState :=
  match progResp with
  | none => st
  | some r =>
      if r = "" then st
      else
        let low := pyLower r
        if strContains low "playing" then { st with program_state := 1 }
        else if strContains low "paused" then { st with program_state := 2 }
        else if strContains low "stopped" then { st with program_state := 0 }
        else st

/-- One poller iteration restricted to the program-state poll: it runs only
while the dashboard is connected and RTDE is not providing status. -/
def pollerIteration (st : ClientState) (progResp : Option String) : ClientState :=
  if st.dashboard_connected && !st.rtde_connected then pollerProgramState progResp st
  else st

/-! ## Dashboard program controller: `play_program`, `stop_program`

Each loop body classifies the reply text by the exact substring chain of the
source; the classification is factored into an enumeration so the retry
logic can dispatch on it.  All substring tests run on the lowered reply,
matching `result.lower()`.
-/

/-- Outcome classes of one `play` reply, in the exact test order of
`play_program`. -/
inductive PlayKind
  | disabled
  | failedExecPlay
  | failedExecOther
  | errorOrFailed
  | banner
  | staleState
  | loading
  | startAccept
  | unknown
deriving DecidableEq, Repr

/-- Substring classification chain of `play_program`. -/
def playClassify (result : String) : PlayKind :=
  let low := pyLower result
  if strContains low "remote control mode is disabled" then PlayKind.disabled
  else if strContains low "failed to execute" then
    if strContains low "play" then PlayKind.failedExecPlay else PlayKind.failedExecOther
  else if strContains low "error" || strContains low "failed" then PlayKind.errorOrFailed
  else if strContains low "connected:" || strContains low "dashboard server" then PlayKind.banner
  else if strContains low "stopped" || strContains low "stopping" ||
          strContains low "paused" || strContains low "pausing" then PlayKind.staleState
  else if strContains low "loading" then PlayKind.loading
  else if strContains low "starting" || strContains low "playing" ||
          strContains low "started" then PlayKind.startAccept
  else PlayKind.unknown

/-- The `for attempt in range(3)` retry loop of `play_program`.  `replies`
holds the successive dashboard replies to the issued play command (`none` is a
dashboard transport failure), `now` the wall clock at the accepting read,
`last` the running `last_result`. -/
def playLoop (st : ClientState) (now : ℚ) :
    List (Option String) → Nat → String → (Bool × String) × ClientState
  | [], _, last => ((false, last), st)
  | none :: _, _, _ => ((false, "No response from Dashboard"), st)
  | some result :: rest, attempt, _ =>
      match playClassify result with
      | PlayKind.disabled => ((false, result), st)
      | PlayKind.failedExecPlay => ((false, result), st)
      | PlayKind.failedExecOther =>
          if attempt < 2 then playLoop st now rest (attempt + 1) result
          else ((false, result), st)
      | PlayKind.errorOrFailed => ((false, result), st)
      | PlayKind.banner =>
          if attempt < 2 then playLoop st now rest (attempt + 1) result
          else ((false, result), st)
      | PlayKind.staleState =>
          if attempt < 2 then playLoop st now rest (attempt + 1) result
          else ((false, result), st)
      | PlayKind.loading =>
          if attempt = 0 then playLoop st now rest (attempt + 1) result
          else ((true, result), st)
      | PlayKind.startAccept =>
          ((true, result),
            { st with program_state := 1, program_state_lock_until := now + 1 })
      | PlayKind.unknown =>
          if attempt < 2 then playLoop st now rest (attempt + 1) result
          else ((false, result), st)

/-- `play_program()`. -/
def playProgram (st : ClientState) (now : ℚ) (replies : List (Option String)) :
    (Bool × String) × ClientState :=
  if !st.dashboard_connected then ((false, "Not connected to Dashboard"), st)
  else playLoop st now replies 0 ""

/-- Outcome classes of one `stop` reply, in the exact test order of
`stop_program`. -/
inductive StopKind
  | disabled
  | failedExecStop
  | failedExecOther
  | errorOrFailed
  | banner
  | stopAccept
  | unknown
deriving DecidableEq, Repr

/-- Substring classification chain of `stop_program`. -/
def stopClassify (result : String) : StopKind :=
  let low := pyLower result
  if strContains low "remote control mode is disabled" then StopKind.disabled
  else if strContains low "failed to execute" then
    if strContains low "stop" then StopKind.failedExecStop else StopKind.failedExecOther
  else if strContains low "error" || strContains low "failed" then StopKind.errorOrFailed
  else if strContains low "connected:" || strContains low "dashboard server" then StopKind.banner
  else if strContains low "stopped" || strContains low "stopping" then StopKind.stopAccept
  else StopKind.unknown

/-- The retry loop of `stop_program`: acceptance sets `program_state = 0` and
arms the one-second program-state lock. -/
def stopLoop (st : ClientState) (now : ℚ) :
    List (Option String) → Nat → String → (Bool × String) × ClientState
  | [], _, last => ((false, last), st)
  | none :: _, _, _ => ((false, "No response from Dashboard"), st)
  | some result :: rest, attempt, _ =>
      match stopClassify result with
      | StopKind.disabled => ((false, result), st)
      | StopKind.failedExecStop => ((false, result), st)
      | StopKind.failedExecOther =>
          if attempt < 2 then stopLoop st now rest (attempt + 1) result
          else ((false, result), st)
      | StopKind.errorOrFailed => ((false, result), st)
      | StopKind.banner =>
          if attempt < 2 then stopLoop st now rest (attempt + 1) result
          else ((false, result), st)
      | StopKind.stopAccept =>
          ((true, result),
            { st with program_state := 0, program_state_lock_until := now + 1 })
      | StopKind.unknown =>
          if attempt < 2 then stopLoop st now rest (attempt + 1) result
          else ((false, result), st)

/-- `stop_program()`. -/
def stopProgram (st : ClientState) (now : ℚ) (replies : List (Option String)) :
    (Bool × String) × ClientState :=
  if !st.dashboard_connected then ((false, "Not connected to Dashboard"), st)
  else stopLoop st now replies 0 ""

/-! ## Concrete states used by witnesses and counterexamples -/

/-- Fresh client whose dashboard channel is up. -/
def dashState : ClientState :=
  { initState with dashboard_connected := true }

/-- Fresh client whose command socket is up. -/
def cmdState : ClientState :=
  { initState with connected := true }

/-- Fresh client with command and dashboard up but RTDE down. -/
def cmdDashState : ClientState :=
  { initState with connected := true, dashboard_connected := true }

/-- Fresh client with command and a fully negotiated RTDE speed input. -/
def rtdeReadyState : ClientState :=
  { initState with
    connected := true
    rtde_connected := true
    hasWatchInput := true
    watchHasSpeedFields := true }

/-- A dashboard connection banner, as repeated mid-session by some firmware. -/
def dashBanner : String :=
  "Connected: Universal Robots Dashboard Server"

/-! ## Helper lemmas -/

theorem pyClamp_idem (f : ℚ) : pyClamp (pyClamp f) = pyClamp f := by
  unfold pyClamp
  rcases le_total f 0 with h | h
  · rw [min_eq_right (h.trans zero_le_one), max_eq_left h]
    simp
  · rcases le_total 1 f with h1 | h1
    · rw [min_eq_left h1]
      simp
    · rw [min_eq_right h1, max_eq_right h, min_eq_right h1, max_eq_right h]

theorem pyClamp_nonneg (f : ℚ) : 0 ≤ pyClamp f :=
  le_max_left 0 (min 1 f)

theorem pyClamp_le_one (f : ℚ) : pyClamp f ≤ 1 :=
  max_le zero_le_one (min_le_left 1 f)

theorem setRobotSpeed_congr (st : ClientState) (env : SpeedEnv) (f g : ℚ)
    (h : pyClamp f = pyClamp g) :
    setRobotSpeed st env f = setRobotSpeed st env g := by
  unfold setRobotSpeed
  rw [h]

theorem fallbackScript_channel (st : ClientState) (env : SpeedEnv) (safe : ℚ) :
    (fallbackScript st env safe).1.2.1 = SpeedChannel.script
    ∨ (fallbackScript st env safe).1.2.1 = SpeedChannel.noChannel := by
  unfold fallbackScript
  split
  · exact Or.inr rfl
  · split
    · exact Or.inl rfl
    · exact Or.inl rfl

theorem fallbackScript_sent (st : ClientState) (env : SpeedEnv) (safe : ℚ) :
    (fallbackScript st env safe).1.2.2 = some safe
    ∨ (fallbackScript st env safe).1.2.2 = none := by
  unfold fallbackScript
  split
  · exact Or.inr rfl
  · split
    · exact Or.inl rfl
    · exact Or.inl rfl

theorem fallbackScript_slider (st : ClientState) (env : SpeedEnv) (safe : ℚ) :
    (fallbackScript st env safe).2.rtde_speed_slider = st.rtde_speed_slider := by
  unfold fallbackScript
  split
  · rfl
  · split
    · rfl
    · rfl

theorem fallbackScript_latest (st : ClientState) (env : SpeedEnv) (safe : ℚ) :
    (fallbackScript st env safe).2.latest_state = st.latest_state := by
  unfold fallbackScript
  split
  · rfl
  · split
    · rfl
    · rfl

theorem fallbackScript_fail_connected (st : ClientState) (env : SpeedEnv) (safe : ℚ)
    (h : (fallbackScript st env safe).1.1 = false) :
    (fallbackScript st env safe).2.connected = false := by
  cases hc : st.connected <;> cases hw : env.writeOk <;>
    simp_all [fallbackScript]

theorem setRobotSpeed_slider (st : ClientState) (env : SpeedEnv) (f : ℚ) :
    (setRobotSpeed st env f).2.rtde_speed_slider = pyClamp f := by
  unfold setRobotSpeed
  split
  · split
    · split
      · rfl
      · rw [fallbackScript_slider]
    · rw [fallbackScript_slider]
  · rw [fallbackScript_slider]

theorem setRobotSpeed_latest (st : ClientState) (env : SpeedEnv) (f : ℚ) :
    (setRobotSpeed st env f).2.latest_state = st.latest_state := by
  unfold setRobotSpeed
  split
  · split
    · split
      · rfl
      · rw [fallbackScript_latest]
    · rw [fallbackScript_latest]
  · rw [fallbackScript_latest]

theorem setRobotSpeed_fail_connected (st : ClientState) (env : SpeedEnv) (f : ℚ)
    (h : (setRobotSpeed st env f).1.1 = false) :
    (setRobotSpeed st env f).2.connected = false := by
  cases h1 : (st.rtde_connected && st.hasWatchInput) <;>
    cases h2 : st.watchHasSpeedFields <;>
    cases h3 : env.rtdeSendOk <;>
    simp only [setRobotSpeed, h1, h2, h3, Bool.false_eq_true, if_false, if_true,
      reduceCtorEq] at h ⊢ <;>
    exact fallbackScript_fail_connected _ _ _ h

theorem setRobotSpeed_channel (st : ClientState) (env : SpeedEnv) (f : ℚ) :
    (setRobotSpeed st env f).1.2.1 = SpeedChannel.rtde
    ∨ (setRobotSpeed st env f).1.2.1 = SpeedChannel.script
    ∨ (setRobotSpeed st env f).1.2.1 = SpeedChannel.noChannel := by
  unfold setRobotSpeed
  split
  · split
    · split
      · exact Or.inl rfl
      · exact Or.inr (fallbackScript_channel _ _ _)
    · exact Or.inr (fallbackScript_channel _ _ _)
  · exact Or.inr (fallbackScript_channel _ _ _)

/-! ## Claim theorems -/

/-- C3: a connected `send_command(s)` transmits `s` unwrapped, byte-for-byte
plus a trailing newline appended if absent, whenever `s` has no internal
newline; when `s` has an internal newline and no `def ` occurrence it is
wrapped as a secondary-program definition; in particular
the two-line script a=1, b=2 transmits exactly
`def secondary_program():\na=1\nb=2\nend\n`. -/
theorem C3_sendCommand_wrapping (s : String) :
    (strContains (pyStrip s) "\n" = false →
      sendCommandPayload s = (if strEndsWith s "\n" then s else s ++ "\n"))
    ∧ (strContains (pyStrip s) "\n" = true → strContains s "def " = false →
      sendCommandPayload s =
        "def secondary_program():\n" ++ (if strEndsWith s "\n" then s else s ++ "\n") ++ "end\n")
    ∧ sendCommandPayload "a=1\nb=2" = "def secondary_program():\na=1\nb=2\nend\n" := by
  refine ⟨?_, ?_, by decide⟩
  · intro h
    simp [sendCommandPayload, h]
  · intro h1 h2
    simp [sendCommandPayload, h1, h2]

/-- C3 witness: the no-newline case at `movej([0,0,0,0,0,0])` and the wrapped
case at `a=1\nb=2`. -/
theorem C3_sendCommand_wrapping_witness :
    sendCommandPayload "movej([0,0,0,0,0,0])" = "movej([0,0,0,0,0,0])\n"
    ∧ sendCommandPayload "a=1\nb=2" = "def secondary_program():\na=1\nb=2\nend\n" := by
  constructor
  · have h := (C3_sendCommand_wrapping "movej([0,0,0,0,0,0])").1 (by decide)
    rw [h]
    decide
  · exact (C3_sendCommand_wrapping "movej([0,0,0,0,0,0])").2.2

/-- C7: `connect` aborts with failure before opening any further channel when
the command socket fails, leaving every channel flag unset; when the command
socket succeeds the call returns success and each of the feedback, dashboard
and RTDE channels is marked available exactly when its own attempt
succeeded, so their failures are non-fatal. -/
theorem C7_connect_fatality (st : ClientState) (env : ConnectEnv) :
    (connect st { env with cmdOk := false } = (false, { st with connected := false }))
    ∧ (connect st { env with cmdOk := true }).1 = true
    ∧ (connect st { env with cmdOk := true }).2.connected = true
    ∧ (connect st { env with cmdOk := true }).2.feedback_connected = env.fbOk
    ∧ (connect st { env with cmdOk := true }).2.dashboard_connected = env.dashOk
    ∧ (connect st { env with cmdOk := true }).2.rtde_connected
        = (env.rtdeLibAvail && env.rtdeConnOk && env.rtdeHandshakeOk) := by
  exact ⟨rfl, rfl, rfl, rfl, rfl, rfl⟩

/-- C8: `disconnect` is idempotent, never raises (it is a total function on
`ClientState`), leaves `is_connected() = false` also when called before any
connect (on `initState`), clears all four channel flags and clears the
snapshot. -/
theorem C8_disconnect_idempotent (st : ClientState) :
    disconnect (disconnect st) = disconnect st
    ∧ isConnected (disconnect st) = false
    ∧ isConnected (disconnect initState) = false
    ∧ (disconnect st).connected = false
    ∧ (disconnect st).feedback_connected = false
    ∧ (disconnect st).dashboard_connected = false
    ∧ (disconnect st).rtde_connected = false
    ∧ (disconnect st).latest_state = none := by
  exact ⟨rfl, rfl, rfl, rfl, rfl, rfl, rfl, rfl⟩

/-- C9: `set_robot_speed` clamps before transmission: the two-run equivalences
`set_speed(-0.3) = set_speed(0.0)` and `set_speed(1.7) = set_speed(1.0)`
hold as equalities of the full outcome (result, channel, transmitted value
and successor state), and every value handed to a channel is the clamped
fraction, lying in `[0, 1]`. -/
theorem C9_speed_clamping (st : ClientState) (env : SpeedEnv) :
    setRobotSpeed st env (-3/10) = setRobotSpeed st env 0
    ∧ setRobotSpeed st env (17/10) = setRobotSpeed st env 1
    ∧ ∀ f : ℚ,
        ((setRobotSpeed st env f).1.2.2 = some (pyClamp f)
          ∨ (setRobotSpeed st env f).1.2.2 = none)
        ∧ 0 ≤ pyClamp f ∧ pyClamp f ≤ 1 := by
  refine ⟨setRobotSpeed_congr st env _ _ ?_, setRobotSpeed_congr st env _ _ ?_, ?_⟩
  · show max 0 (min 1 (-3/10 : ℚ)) = max 0 (min 1 0)
    norm_num
  · show max 0 (min 1 (17/10 : ℚ)) = max 0 (min 1 1)
    norm_num
  · intro f
    refine ⟨?_, pyClamp_nonneg f, pyClamp_le_one f⟩
    unfold setRobotSpeed
    split
    · split
      · split
        · exact Or.inl rfl
        · exact fallbackScript_sent _ _ _
      · exact fallbackScript_sent _ _ _
    · exact fallbackScript_sent _ _ _

/-- C5: in the RTDE receive loop the runtime state maps to `program_state` as
0 to STOPPED, 1 and 4 to PLAYING, 2 and 3 to PAUSED, and the update is
applied only when the current time is strictly past the lock expiry; while
the lock is armed the current value is kept. -/
theorem C5_rtde_state_mapping (v : Int) (now lockUntil : ℚ) (cur : Nat) :
    (now ≤ lockUntil → rtdeProgState (some v) now lockUntil cur = cur)
    ∧ (lockUntil < now →
        rtdeProgState (some 0) now lockUntil cur = 0
        ∧ rtdeProgState (some 1) now lockUntil cur = 1
        ∧ rtdeProgState (some 4) now lockUntil cur = 1
        ∧ rtdeProgState (some 2) now lockUntil cur = 2
        ∧ rtdeProgState (some 3) now lockUntil cur = 2) := by
  constructor
  · intro h
    simp [rtdeProgState, not_lt.mpr h]
  · intro h
    refine ⟨?_, ?_, ?_, ?_, ?_⟩ <;> simp [rtdeProgState, h]

/-- C5 witness: with the lock armed (now 0 ≤ lock 5) the state 7 is kept even
for a PLAYING runtime value; with the lock expired (lock 0 < now 5) the five
runtime values map as claimed. -/
theorem C5_rtde_state_mapping_witness :
    rtdeProgState (some 1) 0 5 7 = 7
    ∧ rtdeProgState (some 0) 5 0 7 = 0
    ∧ rtdeProgState (some 1) 5 0 7 = 1
    ∧ rtdeProgState (some 4) 5 0 7 = 1
    ∧ rtdeProgState (some 2) 5 0 7 = 2
    ∧ rtdeProgState (some 3) 5 0 7 = 2 := by
  have h1 := (C5_rtde_state_mapping 1 0 5 7).1 (by norm_num)
  have h2 := (C5_rtde_state_mapping 1 5 0 7).2 (by norm_num)
  exact ⟨h1, h2.1, h2.2.1, h2.2.2.1, h2.2.2.2.1, h2.2.2.2.2⟩

/-- C6: with both candidate speed fields present, the cached fraction takes
the one lying strictly inside (0,1) in preference to one pinned at an
extreme; with both strictly inside it is one of the two; with both at the
extremes 0 or 1 it is their maximum. -/
theorem C6_speed_tiebreak (s t : ℚ) :
    (0 < t ∧ t < 1 ∧ ¬(0 < s ∧ s < 1) → rtdeSpeedUpdate (some s) (some t) = t)
    ∧ (0 < s ∧ s < 1 ∧ ¬(0 < t ∧ t < 1) → rtdeSpeedUpdate (some s) (some t) = s)
    ∧ (0 < s ∧ s < 1 ∧ 0 < t ∧ t < 1 →
        rtdeSpeedUpdate (some s) (some t) = t ∨ rtdeSpeedUpdate (some s) (some t) = s)
    ∧ ((s = 0 ∨ s = 1) → (t = 0 ∨ t = 1) → rtdeSpeedUpdate (some s) (some t) = max s t) := by
  refine ⟨?_, ?_, ?_, ?_⟩
  · rintro ⟨h1, h2, _⟩
    simp [rtdeSpeedUpdate, isMidVal, h1, h2]
  · rintro ⟨h1, h2, h3⟩
    rcases not_and_or.mp h3 with h | h <;>
      simp [rtdeSpeedUpdate, isMidVal, h, h1, h2]
  · rintro ⟨_, _, h3, h4⟩
    exact Or.inl (by simp [rtdeSpeedUpdate, isMidVal, h3, h4])
  · rintro (rfl | rfl) (rfl | rfl) <;> decide

/-- C6 witness: target fraction 1/2 beats scaling pinned at 1; scaling 1/2
beats target pinned at 0; with 1/2 and 3/4 both inside, one of the two is
taken; extremes 0 and 1 resolve to their maximum. -/
theorem C6_speed_tiebreak_witness :
    rtdeSpeedUpdate (some 1) (some (1/2)) = 1/2
    ∧ rtdeSpeedUpdate (some (1/2)) (some 0) = 1/2
    ∧ (rtdeSpeedUpdate (some (1/2)) (some (3/4)) = 3/4
        ∨ rtdeSpeedUpdate (some (1/2)) (some (3/4)) = 1/2)
    ∧ rtdeSpeedUpdate (some 0) (some 1) = max 0 1 := by
  refine ⟨?_, ?_, ?_, ?_⟩
  · exact (C6_speed_tiebreak 1 (1/2)).1 ⟨by norm_num, by norm_num, by norm_num⟩
  · exact (C6_speed_tiebreak (1/2) 0).2.1 ⟨by norm_num, by norm_num, by norm_num⟩
  · exact (C6_speed_tiebreak (1/2) (3/4)).2.2.1
      ⟨by norm_num, by norm_num, by norm_num, by norm_num⟩
  · exact (C6_speed_tiebreak 0 1).2.2.2 (Or.inl rfl) (Or.inr rfl)

unseal Rat.add Rat.mul Rat.inv in
/-- C1: demonstrates the divergence between the claim and the source.  A
successful `stop_program()` (reply `Stopped` at time 0) sets
`program_state = 0` (STOPPED) and arms the lock until time 1, exactly as the
claim describes; but the very next Status Poller `programState` sample whose
reply reports playing overwrites `program_state` to 1 (PLAYING) even though
the lock window has not elapsed: the poller branch of the source reads no
clock and never consults `program_state_lock_until` (only the RTDE receive
loop does), so the claimed protection does not hold on the dashboard-poller
path. -/
theorem C1_poller_overwrites_locked_state :
    (stopProgram dashState 0 [some "Stopped"]).1 = (true, "Stopped")
    ∧ (stopProgram dashState 0 [some "Stopped"]).2.program_state = 0
    ∧ (stopProgram dashState 0 [some "Stopped"]).2.program_state_lock_until = 1
    ∧ (pollerIteration (stopProgram dashState 0 [some "Stopped"]).2
        (some "PLAYING example.urp")).program_state = 1 := by
  decide

unseal Rat.add Rat.mul Rat.inv in
/-- C2 counterexample: with RTDE unavailable but the dashboard connected, the
claim predicts a dashboard `set speed` command, while `set_robot_speed`
falls back directly to the raw URScript channel; no dashboard path exists in
the source. -/
theorem C2_no_dashboard_speed_path :
    specSpeedChannel false true = SpeedChannel.dashboard
    ∧ (setRobotSpeed cmdDashState ⟨true, true⟩ (1/2)).1.2.1 = SpeedChannel.script
    ∧ SpeedChannel.script ≠ SpeedChannel.dashboard := by
  decide

/-- C2 (amended): `set_speed` clamps to [0,1]; when RTDE is connected with a
negotiated input recipe exposing the speed-slider fields and the write
succeeds, the clamped fraction is written via the recipe and the call
returns success immediately; in every other case the raw script equivalent
is sent via the Command Channel; no dashboard `set speed` tier exists, so
the dashboard channel is never the one used. -/
theorem C2_speed_channel_selection (st : ClientState) (env : SpeedEnv) (f : ℚ) :
    (st.rtde_connected = true → st.hasWatchInput = true → st.watchHasSpeedFields = true →
      env.rtdeSendOk = true →
      (setRobotSpeed st env f).1 = (true, SpeedChannel.rtde, some (pyClamp f)))
    ∧ ((st.rtde_connected && st.hasWatchInput && st.watchHasSpeedFields
          && env.rtdeSendOk) = false →
      ((setRobotSpeed st env f).1.2.1 = SpeedChannel.script
        ∨ (setRobotSpeed st env f).1.2.1 = SpeedChannel.noChannel))
    ∧ (setRobotSpeed st env f).1.2.1 ≠ SpeedChannel.dashboard := by
  refine ⟨?_, ?_, ?_⟩
  · intro h1 h2 h3 h4
    simp [setRobotSpeed, h1, h2, h3, h4]
  · intro h
    cases h1 : (st.rtde_connected && st.hasWatchInput) <;>
      cases h2 : st.watchHasSpeedFields <;>
      cases h3 : env.rtdeSendOk <;>
      simp [setRobotSpeed, h1, h2, h3] at h ⊢ <;>
      exact fallbackScript_channel _ _ _
  · rcases setRobotSpeed_channel st env f with h | h | h <;> rw [h] <;> decide

/-- C2 witness: the RTDE tier at a fully negotiated state, and the script
fallback at a state with RTDE down. -/
theorem C2_speed_channel_selection_witness :
    (setRobotSpeed rtdeReadyState ⟨true, true⟩ (7/10)).1
        = (true, SpeedChannel.rtde, some (pyClamp (7/10)))
    ∧ ((setRobotSpeed cmdDashState ⟨true, true⟩ (7/10)).1.2.1 = SpeedChannel.script
        ∨ (setRobotSpeed cmdDashState ⟨true, true⟩ (7/10)).1.2.1
            = SpeedChannel.noChannel) := by
  exact ⟨(C2_speed_channel_selection rtdeReadyState ⟨true, true⟩ (7/10)).1 rfl rfl rfl rfl,
    (C2_speed_channel_selection cmdDashState ⟨true, true⟩ (7/10)).2.1 rfl⟩

unseal Rat.add Rat.mul Rat.inv in
/-- C10 counterexample: a connected client whose script write fails: the call
returns false and the clamped value is cached, but the failure has marked
the command channel disconnected, so the subsequent `read_state()` (no
telemetry yet) returns None instead of reporting the cached speed. -/
theorem C10_read_state_none_after_failure :
    (setRobotSpeed cmdState ⟨true, false⟩ (1/2)).1.1 = false
    ∧ (setRobotSpeed cmdState ⟨true, false⟩ (1/2)).2.rtde_speed_slider = 1/2
    ∧ readState (setRobotSpeed cmdState ⟨true, false⟩ (1/2)).2 = none := by
  decide

/-- C10 (amended): `set_robot_speed(f)` caches the clamped value
unconditionally before any transmission, so it equals `pyClamp f` even when
the call fails; but a failing call always leaves the command channel
disconnected, so a subsequent `read_state()` with no telemetry returns None
rather than reporting the cached speed; whenever the call leaves the client
connected and no telemetry has arrived, `read_state()` does report the
cached clamped value as `speed_slider`. -/
theorem C10_cached_speed_semantics (st : ClientState) (env : SpeedEnv) (f : ℚ) :
    (setRobotSpeed st env f).2.rtde_speed_slider = pyClamp f
    ∧ ((setRobotSpeed st env f).1.1 = false → (setRobotSpeed st env f).2.connected = false)
    ∧ ((setRobotSpeed st env f).1.1 = false → st.latest_state = none →
        readState (setRobotSpeed st env f).2 = none)
    ∧ ((setRobotSpeed st env f).2.connected = true → st.latest_state = none →
        (readState (setRobotSpeed st env f).2).map Snapshot.speed_slider
          = some (pyClamp f)) := by
  refine ⟨setRobotSpeed_slider st env f, setRobotSpeed_fail_connected st env f, ?_, ?_⟩
  · intro h hl
    have hc := setRobotSpeed_fail_connected st env f h
    have hlat : (setRobotSpeed st env f).2.latest_state = none := by
      rw [setRobotSpeed_latest]
      exact hl
    simp [readState, hlat, hc]
  · intro hc hl
    have hlat : (setRobotSpeed st env f).2.latest_state = none := by
      rw [setRobotSpeed_latest]
      exact hl
    simp [readState, hlat, hc, setRobotSpeed_slider st env f]

unseal Rat.add Rat.mul Rat.inv in
/-- C10 witness: the failing-write state for the cached value and the None
read, and the successful-write state for the connected read. -/
theorem C10_cached_speed_semantics_witness :
    (setRobotSpeed cmdState ⟨true, false⟩ (1/2)).2.rtde_speed_slider = pyClamp (1/2)
    ∧ readState (setRobotSpeed cmdState ⟨true, false⟩ (1/2)).2 = none
    ∧ (readState (setRobotSpeed cmdState ⟨true, true⟩ (1/2)).2).map Snapshot.speed_slider
        = some (pyClamp (1/2)) := by
  exact ⟨(C10_cached_speed_semantics cmdState ⟨true, false⟩ (1/2)).1,
    (C10_cached_speed_semantics cmdState ⟨true, false⟩ (1/2)).2.2.1 (by decide) rfl,
    (C10_cached_speed_semantics cmdState ⟨true, true⟩ (1/2)).2.2.2 (by decide) rfl⟩

theorem playLoop_retry_step (st : ClientState) (now : ℚ) (r : String)
    (rest : List (Option String)) (attempt : Nat) (last : String)
    (h : playClassify r = PlayKind.banner ∨ playClassify r = PlayKind.staleState)
    (hlt : attempt < 2) :
    playLoop st now (some r :: rest) attempt last
      = playLoop st now rest (attempt + 1) r := by
  rcases h with h | h <;> simp [playLoop, h, hlt]

theorem playLoop_retry_exhausted (st : ClientState) (now : ℚ) (r : String)
    (rest : List (Option String)) (attempt : Nat) (last : String)
    (h : playClassify r = PlayKind.banner ∨ playClassify r = PlayKind.staleState)
    (hge : ¬attempt < 2) :
    playLoop st now (some r :: rest) attempt last = ((false, r), st) := by
  rcases h with h | h <;> simp [playLoop, h, hge]

/-- C4: a `play_program()` whose first dashboard read is `Loading program`
and whose second is `Starting program` returns success with the message
taken from the second reply (the first causes a retry, the second the
acceptance that also sets PLAYING and arms the lock); and three successive
stale or ambiguous replies (connection banners or leftover state words, the
`banner` and `staleState` classes) exhaust the 3 attempts and report failure
with the last text seen, leaving the state unchanged. -/
theorem C4_play_stale_retry (st : ClientState) (now : ℚ) (r0 r1 r2 : String)
    (hdash : st.dashboard_connected = true)
    (h0 : playClassify r0 = PlayKind.banner ∨ playClassify r0 = PlayKind.staleState)
    (h1 : playClassify r1 = PlayKind.banner ∨ playClassify r1 = PlayKind.staleState)
    (h2 : playClassify r2 = PlayKind.banner ∨ playClassify r2 = PlayKind.staleState) :
    playProgram st now [some "Loading program", some "Starting program"]
      = ((true, "Starting program"),
          { st with program_state := 1, program_state_lock_until := now + 1 })
    ∧ playProgram st now [some r0, some r1, some r2] = ((false, r2), st) := by
  constructor
  · have hA : playClassify "Loading program" = PlayKind.loading := by decide
    have hB : playClassify "Starting program" = PlayKind.startAccept := by decide
    simp [playProgram, hdash, playLoop, hA, hB]
  · rw [playProgram, if_neg (by simp [hdash])]
    rw [playLoop_retry_step st now r0 _ 0 "" h0 (by norm_num)]
    rw [playLoop_retry_step st now r1 _ 1 r0 h1 (by norm_num)]
    exact playLoop_retry_exhausted st now r2 [] 2 r1 h2 (by norm_num)

/-- C4 witness: the Loading-then-Starting acceptance, and three stale reads
(banner, leftover `Stopped`, banner) ending in failure with the last text. -/
theorem C4_play_stale_retry_witness :
    playProgram dashState 0 [some "Loading program", some "Starting program"]
      = ((true, "Starting program"),
          { dashState with program_state := 1, program_state_lock_until := 0 + 1 })
    ∧ playProgram dashState 0 [some dashBanner, some "Stopped", some dashBanner]
      = ((false, dashBanner), dashState) := by
  have h := C4_play_stale_retry dashState 0 dashBanner "Stopped" dashBanner rfl
    (Or.inl (by decide)) (Or.inr (by decide)) (Or.inl (by decide))
  exact ⟨h.1, h.2⟩
